import Mathlib

/-!
Shallow embedding of the color core of `colortools/base.py`.

The Python `Color` class stores four integer components (`_red`, `_green`,
`_blue`, `_alpha`); Python integers are unbounded, so components are `ℤ`.
Construction dispatches on the shape of the arguments; fallible paths are
modelled with `Except`/`Option`, and the case in which `__init__` returns
without ever assigning the slots is modelled by a dedicated outcome
(`InitResult.uninit`).
-/

/-- The Color value: the four instance slots `_red`, `_green`, `_blue`,
`_alpha` of `colortools.base.Color`.  Python ints are unbounded, hence `ℤ`. -/
structure Color where
  red : ℤ
  green : ℤ
  blue : ℤ
  alpha : ℤ
deriving DecidableEq, Repr

/-- `Color._fromrgba(r, g, b, a)`: stores the four components.  The source
applies `int()` to each argument; on the integer arguments used throughout
this embedding `int()` is the identity. -/
def Color.fromrgba (r g b a : ℤ) : Color := ⟨r, g, b, a⟩

/-- Value of a hexadecimal digit character, as accepted by Python
`int(-, 16)` for the two-character digit groups cut out by `_fromhex`
(case-insensitive). `none` models the `ValueError` raised on a non-digit. -/
def hexVal (c : Char) : Option ℕ :=
  if '0' ≤ c ∧ c ≤ '9' then some (c.toNat - '0'.toNat)
  else if 'a' ≤ c ∧ c ≤ 'f' then some (c.toNat - 'a'.toNat + 10)
  else if 'A' ≤ c ∧ c ≤ 'F' then some (c.toNat - 'A'.toNat + 10)
  else none

/-- `int(value[2*i : 2*i+2], 16)`: parse one two-character hex digit group. -/
def parseHexPair (c1 c2 : Char) : Option ℕ :=
  match hexVal c1, hexVal c2 with
  | some d1, some d2 => some (16 * d1 + d2)
  | _, _ => none

/-- The digit-doubling step of `_fromhex`:
`value = ''.join(c + c for c in value)`. -/
def doubleDigits (v : List Char) : List Char :=
  (v.map fun c => [c, c]).flatten

/-- The length dispatch of `_fromhex` after the optional doubling: six
digits give RGB with the `alpha` argument, eight give RGBA, anything else
raises `ValueError('invalid hex code: ...')`.  A failing digit group is the
propagated `ValueError` of `int(-, 16)`. -/
def fromhexCore (v : List Char) (alpha : ℤ) : Except String Color :=
  if v.length = 6 then
    match parseHexPair (v.getD 0 ' ') (v.getD 1 ' '),
        parseHexPair (v.getD 2 ' ') (v.getD 3 ' '),
        parseHexPair (v.getD 4 ' ') (v.getD 5 ' ') with
    | some r, some g, some b => .ok (Color.fromrgba r g b alpha)
    | _, _, _ => .error "ValueError: invalid literal for int() with base 16"
  else if v.length = 8 then
    match parseHexPair (v.getD 0 ' ') (v.getD 1 ' '),
        parseHexPair (v.getD 2 ' ') (v.getD 3 ' '),
        parseHexPair (v.getD 4 ' ') (v.getD 5 ' '),
        parseHexPair (v.getD 6 ' ') (v.getD 7 ' ') with
    | some r, some g, some b, some a => .ok (Color.fromrgba r g b a)
    | _, _, _, _ => .error "ValueError: invalid literal for int() with base 16"
  else .error "ValueError: invalid hex code"

/-- `Color._fromhex(value, alpha=255)`: drop the leading character
(`value = value[1:]`), double each digit when 3 or 4 digits remain, then
dispatch on the resulting length. -/
def Color.fromhex (s : String) (alpha : ℤ) : Except String Color :=
  let v := s.toList.drop 1
  let v := if v.length = 3 ∨ v.length = 4 then doubleDigits v else v
  fromhexCore v alpha

/-- Module-level `Color(code)` on the hex literals of the two seed tables.
Every literal in those tables is a valid hex code, so the fallback branch is
dead; it only makes the definition total. -/
def hexColor (code : String) : Color :=
  match Color.fromhex code 255 with
  | .ok c => c
  | .error _ => Color.fromrgba 0 0 0 255

/-- The 18 HTML basic colors installed into `Color._CACHE` by the
`Color._CACHE.update(...)` call, in its keyword order. -/
def basicColors : List (String × Color) :=
  [("white", hexColor "#ffffff"), ("silver", hexColor "#c0c0c0"),
   ("gray", hexColor "#808080"), ("black", hexColor "#000000"),
   ("red", hexColor "#ff0000"), ("maroon", hexColor "#800000"),
   ("yellow", hexColor "#ffff00"), ("olive", hexColor "#808000"),
   ("lime", hexColor "#00ff00"), ("green", hexColor "#008000"),
   ("aqua", hexColor "#00ffff"), ("teal", hexColor "#008080"),
   ("blue", hexColor "#0000ff"), ("navy", hexColor "#000080"),
   ("fuschia", hexColor "#ff00ff"), ("purple", hexColor "#800080"),
   ("transparent", hexColor "#ffffff00"), ("null", hexColor "#00000000")]

/-- The SVG extended color table `COLOR_NAMES` of the source, verbatim. -/
def COLOR_NAMES : List (String × String) :=
  [("aliceblue", "#F0F8FF"), ("antiquewhite", "#FAEBD7"), ("aqua", "#00FFFF"), ("aquamarine", "#7FFFD4"),
  ("azure", "#F0FFFF"), ("beige", "#F5F5DC"), ("bisque", "#FFE4C4"), ("black", "#000000"),
  ("blanchedalmond", "#FFEBCD"), ("blue", "#0000FF"), ("blueviolet", "#8A2BE2"), ("brown", "#A52A2A"),
  ("burlywood", "#DEB887"), ("cadetblue", "#5F9EA0"), ("chartreuse", "#7FFF00"), ("chocolate", "#D2691E"),
  ("coral", "#FF7F50"), ("cornflowerblue", "#6495ED"), ("cornsilk", "#FFF8DC"), ("crimson", "#DC143C"),
  ("cyan", "#00FFFF"), ("darkblue", "#00008B"), ("darkcyan", "#008B8B"), ("darkgoldenrod", "#B8860B"),
  ("darkgray", "#A9A9A9"), ("darkgreen", "#006400"), ("darkgrey", "#A9A9A9"), ("darkkhaki", "#BDB76B"),
  ("darkmagenta", "#8B008B"), ("darkolivegreen", "#556B2F"), ("darkorange", "#FF8C00"), ("darkorchid", "#9932CC"),
  ("darkred", "#8B0000"), ("darksalmon", "#E9967A"), ("darkseagreen", "#8FBC8F"), ("darkslateblue", "#483D8B"),
  ("darkslategray", "#2F4F4F"), ("darkslategrey", "#2F4F4F"), ("darkturquoise", "#00CED1"), ("darkviolet", "#9400D3"),
  ("deeppink", "#FF1493"), ("deepskyblue", "#00BFFF"), ("dimgray", "#696969"), ("dimgrey", "#696969"),
  ("dodgerblue", "#1E90FF"), ("firebrick", "#B22222"), ("floralwhite", "#FFFAF0"), ("forestgreen", "#228B22"),
  ("fuchsia", "#FF00FF"), ("gainsboro", "#DCDCDC"), ("ghostwhite", "#F8F8FF"), ("gold", "#FFD700"),
  ("goldenrod", "#DAA520"), ("gray", "#808080"), ("green", "#008000"), ("greenyellow", "#ADFF2F"),
  ("grey", "#808080"), ("honeydew", "#F0FFF0"), ("hotpink", "#FF69B4"), ("indianred", "#CD5C5C"),
  ("indigo", "#4B0082"), ("ivory", "#FFFFF0"), ("khaki", "#F0E68C"), ("lavender", "#E6E6FA"),
  ("lavenderblush", "#FFF0F5"), ("lawngreen", "#7CFC00"), ("lemonchiffon", "#FFFACD"), ("lightblue", "#ADD8E6"),
  ("lightcoral", "#F08080"), ("lightcyan", "#E0FFFF"), ("lightgoldenrodyellow", "#FAFAD2"), ("lightgray", "#D3D3D3"),
  ("lightgreen", "#90EE90"), ("lightgrey", "#D3D3D3"), ("lightpink", "#FFB6C1"), ("lightsalmon", "#FFA07A"),
  ("lightseagreen", "#20B2AA"), ("lightskyblue", "#87CEFA"), ("lightslategray", "#778899"), ("lightslategrey", "#778899"),
  ("lightsteelblue", "#B0C4DE"), ("lightyellow", "#FFFFE0"), ("lime", "#00FF00"), ("limegreen", "#32CD32"),
  ("linen", "#FAF0E6"), ("magenta", "#FF00FF"), ("maroon", "#800000"), ("mediumaquamarine", "#66CDAA"),
  ("mediumblue", "#0000CD"), ("mediumorchid", "#BA55D3"), ("mediumpurple", "#9370DB"), ("mediumseagreen", "#3CB371"),
  ("mediumslateblue", "#7B68EE"), ("mediumspringgreen", "#00FA9A"), ("mediumturquoise", "#48D1CC"), ("mediumvioletred", "#C71585"),
  ("midnightblue", "#191970"), ("mintcream", "#F5FFFA"), ("mistyrose", "#FFE4E1"), ("moccasin", "#FFE4B5"),
  ("navajowhite", "#FFDEAD"), ("navy", "#000080"), ("oldlace", "#FDF5E6"), ("olive", "#808000"),
  ("olivedrab", "#6B8E23"), ("orange", "#FFA500"), ("orangered", "#FF4500"), ("orchid", "#DA70D6"),
  ("palegoldenrod", "#EEE8AA"), ("palegreen", "#98FB98"), ("paleturquoise", "#AFEEEE"), ("palevioletred", "#DB7093"),
  ("papayawhip", "#FFEFD5"), ("peachpuff", "#FFDAB9"), ("peru", "#CD853F"), ("pink", "#FFC0CB"),
  ("plum", "#DDA0DD"), ("powderblue", "#B0E0E6"), ("purple", "#800080"), ("red", "#FF0000"),
  ("rosybrown", "#BC8F8F"), ("royalblue", "#4169E1"), ("saddlebrown", "#8B4513"), ("salmon", "#FA8072"),
  ("sandybrown", "#F4A460"), ("seagreen", "#2E8B57"), ("seashell", "#FFF5EE"), ("sienna", "#A0522D"),
  ("silver", "#C0C0C0"), ("skyblue", "#87CEEB"), ("slateblue", "#6A5ACD"), ("slategray", "#708090"),
  ("slategrey", "#708090"), ("snow", "#FFFAFA"), ("springgreen", "#00FF7F"), ("steelblue", "#4682B4"),
  ("tan", "#D2B48C"), ("teal", "#008080"), ("thistle", "#D8BFD8"), ("tomato", "#FF6347"),
  ("turquoise", "#40E0D0"), ("violet", "#EE82EE"), ("wheat", "#F5DEB3"), ("white", "#FFFFFF"),
  ("whitesmoke", "#F5F5F5"), ("yellow", "#FFFF00"), ("yellowgreen", "#9ACD32")]

/-- One step of the SVG seeding loop:
`Color._CACHE.setdefault(_name, Color(_code))`. -/
def cacheStep (cache : List (String × Color)) (nc : String × String) :
    List (String × Color) :=
  if (cache.lookup nc.1).isSome then cache else cache ++ [(nc.1, hexColor nc.2)]

/-- `Color._CACHE` after module initialisation: the basic-color update
followed by `setdefault` over `COLOR_NAMES`.  Keys keep dict insertion
order; `List.lookup` finds the first (only) binding of a key. -/
def CACHE : List (String × Color) :=
  COLOR_NAMES.foldl cacheStep basicColors

/-- A Python value passed to the `Color` constructor or to the module-level
`rgb`/`rgba` helpers: `None`, an int, a string, a list/tuple of ints, or an
existing `Color`. -/
inductive Arg
  | noneV : Arg
  | intV : ℤ → Arg
  | strV : String → Arg
  | listV : List ℤ → Arg
  | colorV : Color → Arg
deriving DecidableEq, Repr

/-- Outcome of `Color.__init__`: a fully initialised color, a raised
exception (with its message), or a normal return that never assigned the
component slots (`uninit`). -/
inductive InitResult
  | ok : Color → InitResult
  | error : String → InitResult
  | uninit : InitResult
deriving DecidableEq, Repr

/-- Python `int()` applied to a component argument by `_fromrgba`:
identity on ints, decimal-literal parsing on strings, `TypeError` on
`None`, sequences and `Color` (none of which define `__int__`). -/
def pyIntCoerce : Arg → Except String ℤ
  | .intV n => .ok n
  | .strV s =>
    match s.toInt? with
    | some n => .ok n
    | none => .error "ValueError: invalid literal for int()"
  | _ => .error "TypeError: int() argument"

/-- `self._fromrgba(*xs)` for a list of integer components: missing
components default to `r=0, g=0, b=0, a=255`; more than four positional
values raise `TypeError`. -/
def fromrgbaList : List ℤ → InitResult
  | [] => .ok (Color.fromrgba 0 0 0 255)
  | [r] => .ok (Color.fromrgba r 0 0 255)
  | [r, g] => .ok (Color.fromrgba r g 0 255)
  | [r, g, b] => .ok (Color.fromrgba r g b 255)
  | [r, g, b, a] => .ok (Color.fromrgba r g b a)
  | _ => .error "TypeError: _fromrgba() takes at most 5 positional arguments"

/-- `tuple(self)`: `__iter__` yields red, green, blue, alpha in order. -/
def Color.rgba (c : Color) : List ℤ := [c.red, c.green, c.blue, c.alpha]

/-- `Color.rgb`: `self[:3]`; the slice path of `__getitem__` maps the slice
over `_RANGE = (0, 1, 2, 3)`, so `[:3]` selects `(self[0], self[1],
self[2])`, i.e. red, green, blue. -/
def Color.rgb (c : Color) : List ℤ := [c.red, c.green, c.blue]

/-- `value.lower()` on the ASCII color names used here: lower-case each
character. -/
def pyLower (s : String) : String := ⟨s.data.map Char.toLower⟩

/-- `value.startswith('#')`: true iff the first character is `#`. -/
def pyStartsWithHash (s : String) : Bool :=
  match s.data with
  | [] => false
  | c :: _ => c == '#'

/-- `Color._fromname(value)`:
`self._fromrgba(*self._CACHE[value.lower()].rgba)`; a missing key raises
`KeyError`. -/
def Color.fromname (s : String) : InitResult :=
  match CACHE.lookup (pyLower s) with
  | some c => fromrgbaList c.rgba
  | none => .error "KeyError"

/-- `Color.__init__(*args)`.  `rnd` is the triple of values produced by the
three `random.randint(0, 255)` calls of the `'random'` branch, passed
explicitly because the embedding is pure; no other branch reads it.
Keyword arguments are not modelled: every construction exercised by the
claims passes only positional arguments, so `alpha` keeps its defaults.

The source has two slips that are modelled faithfully: `len(args) == 0`
executes `raise NotImplemented`, which raises a `TypeError` (because
`NotImplemented` is not an exception), and the final `else` branch merely
evaluates `TypeError('invalid number of arguments: ...')` without `raise`,
so `__init__` returns normally and the slots stay unset (`uninit`).  A
single argument of an unhandled type (e.g. `None`) also falls through every
`isinstance` check and returns with the slots unset. -/
def colorInit (rnd : ℤ × ℤ × ℤ) (args : List Arg) : InitResult :=
  if args.length = 3 ∨ args.length = 4 then
    match args.mapM pyIntCoerce with
    | .ok xs => fromrgbaList xs
    | .error e => .error e
  else
    match args with
    | [.listV xs] => fromrgbaList xs
    | [.colorV c] => fromrgbaList c.rgba
    | [.strV s] =>
      if pyStartsWithHash s then
        match Color.fromhex s 255 with
        | .ok c => .ok c
        | .error e => .error e
      else if s = "random" then fromrgbaList [rnd.1, rnd.2.1, rnd.2.2]
      else Color.fromname s
    | [.intV v] =>
      let r := Int.shiftRight (Int.land v 0xff0000) 16
      let g := Int.shiftRight (Int.land v 0xff00) 8
      let b := Int.shiftRight (Int.land v 0xff) 0
      fromrgbaList [r, g, b]
    | [] => .error "TypeError: exceptions must derive from BaseException"
    | _ => .uninit

/-- `Color.copy(red=None, green=None, blue=None, alpha=None, **kwds)`:
unpack the receiver, override the components that were passed, reject any
extra keyword with `NotImplementedError`, and build a fresh
`Color(R, G, B, A)` (a 4-argument dispatch, which never consults the
random branch, so the dispatcher gets an arbitrary fixed `rnd`). -/
def Color.copy (c : Color) (red green blue alpha : Option ℤ)
    (kwds : List (String × ℤ)) : InitResult :=
  let R := match red with | some v => v | none => c.red
  let G := match green with | some v => v | none => c.green
  let B := match blue with | some v => v | none => c.blue
  let A := match alpha with | some v => v | none => c.alpha
  if kwds.isEmpty then
    colorInit (0, 0, 0) [.intV R, .intV G, .intV B, .intV A]
  else .error "NotImplementedError"

/-- `Color.rgbau`: `(c[0] << 24) + (c[1] << 16) + (c[2] << 8) + c[3]`;
`c[0]`..`c[3]` are the four components (see `Color.getitem`). -/
def Color.rgbau (c : Color) : ℤ :=
  (c.red <<< (24 : ℤ)) + (c.green <<< (16 : ℤ)) + (c.blue <<< (8 : ℤ)) + c.alpha

/-- `Color.rgbu`: `(c[0] << 16) + (c[1] << 8) + c[2]`. -/
def Color.rgbu (c : Color) : ℤ :=
  (c.red <<< (16 : ℤ)) + (c.green <<< (8 : ℤ)) + c.blue

/-- The component table of `__getitem__` for a non-negative int key: keys
0..3 return the components, any other int key reaches the final
`raise IndexError(key)`. -/
def Color.getitemTable (c : Color) (key : ℤ) : Except String ℤ :=
  if key = 0 then .ok c.red
  else if key = 1 then .ok c.green
  else if key = 2 then .ok c.blue
  else if key = 3 then .ok c.alpha
  else .error "IndexError"

/-- `Color.__getitem__(key)` for an int key: a negative key is first
shifted by `len(self) = 4`, and raises `IndexError` when still negative. -/
def Color.getitem (c : Color) (key : ℤ) : Except String ℤ :=
  if key < 0 then
    let key := key + 4
    if key < 0 then .error "IndexError" else c.getitemTable key
  else c.getitemTable key

/-- `Color.__eq__` when `other` is another Color: the attribute accesses
succeed and the four components are compared. -/
def Color.eqColor (c d : Color) : Bool :=
  c.red == d.red && c.green == d.green && c.blue == d.blue && c.alpha == d.alpha

/-- `Color.__eq__` when `other` is a tuple-like sequence of ints: the
attribute accesses raise `AttributeError`, and the fallback compares
`zip(self, other)` component-wise for length 4, additionally requires
`alpha == 255` for length 3, and returns `False` for any other length. -/
def Color.eqList (c : Color) (other : List ℤ) : Bool :=
  if other.length = 4 then (c.rgba.zip other).all fun p => p.1 == p.2
  else if other.length = 3 then
    c.alpha == 255 && (c.rgba.zip other).all fun p => p.1 == p.2
  else false

/-- The attribute names defined on `Color` instances: the `__slots__`
entries plus the properties and methods of the class body.  There is no
`u_rgba` attribute: the packed-RGBA property is spelled `rgbau`. -/
def Color.attrNames : List String :=
  ["_red", "_green", "_blue", "_alpha",
   "red", "green", "blue", "alpha", "hue", "saturation", "intensity",
   "rgba", "rgb", "rgbf", "rgbaf", "rgbau", "rgbu",
   "hsi", "hsia", "hsiaf", "hsif", "copy"]

/-- `Color.__hash__`: `hash(self.u_rgba)`.  The lookup of `u_rgba` on the
attribute set raises `AttributeError` (`none`) when the name is absent;
were it present it would denote the packed 32-bit RGBA word `rgbau`, whose
Python `hash` is the integer itself for the values in range here. -/
def Color.hash (c : Color) : Option ℤ :=
  if Color.attrNames.contains "u_rgba" then some c.rgbau else none

/-- Whether an `Arg` is a `Color` instance (the only `Arg` shape providing
the `rgb`/`rgba` accessor attributes). -/
def isColorArg : Arg → Bool
  | .colorV _ => true
  | _ => false

/-- Python truthiness of an `Arg`: `None`, `0`, `''` and `[]` are falsy; a
`Color` is always truthy because its `__len__` returns 4. -/
def truthy : Arg → Bool
  | .noneV => false
  | .intV n => n != 0
  | .strV s => s.length != 0
  | .listV xs => xs.length != 0
  | .colorV _ => true

/-- Module-level `rgb(color)`: `try: return color.rgb` succeeds only for a
`Color`; every other input raises `AttributeError` and is routed through
`Color(color or 'black').rgb`.  When that constructor falls through with
unset slots (`uninit`), the subsequent `.rgb` access raises
`AttributeError`. -/
def rgb (rnd : ℤ × ℤ × ℤ) (color : Arg) : Except String (List ℤ) :=
  match color with
  | .colorV c => .ok c.rgb
  | _ =>
    match colorInit rnd [if truthy color then color else .strV "black"] with
    | .ok c => .ok c.rgb
    | .error e => .error e
    | .uninit => .error "AttributeError"

/-- Module-level `rgba(color)`: as `rgb`, returning the 4-tuple. -/
def rgba (rnd : ℤ × ℤ × ℤ) (color : Arg) : Except String (List ℤ) :=
  match color with
  | .colorV c => .ok c.rgba
  | _ =>
    match colorInit rnd [if truthy color then color else .strV "black"] with
    | .ok c => .ok c.rgba
    | .error e => .error e
    | .uninit => .error "AttributeError"

/-- `Color.hsia`: hue, saturation, intensity (and alpha) over exact reals.
Failure points of the source are modelled as `none`:
`S = 1 - min(R, G, B) / I` raises `ZeroDivisionError` when `I = 0`;
`math.acos` raises `ValueError` outside `[-1, 1]`;
`h_numer / h_denom` raises `ZeroDivisionError` when the denominator
`sqrt((r - b)**2 + (r - b)*(g - b))` is zero (`math.sqrt` of a negative
radicand would raise as well; `Real.sqrt` maps it to 0, which lands in the
same `none`). -/
noncomputable def Color.hsia (c : Color) : Option (ℝ × ℝ × ℝ × ℤ) :=
  let R : ℝ := c.red
  let G : ℝ := c.green
  let B : ℝ := c.blue
  let I : ℝ := (R + G + B) / 3
  if I = 0 then none
  else
    let S : ℝ := 1 - min R (min G B) / I
    let r : ℝ := R / 255
    let g : ℝ := G / 255
    let b : ℝ := B / 255
    let x : ℝ := ((r - g) + (r - b)) / 2
    if x < -1 ∨ 1 < x then none
    else
      let hDenom : ℝ := Real.sqrt ((r - b) ^ 2 + (r - b) * (g - b))
      if hDenom = 0 then none
      else some (Real.arccos x / hDenom, S, I, c.alpha)

/-! ## Helper lemmas -/

section Helpers

/-- `List.lookup` ignores a right extension when the key is already bound
on the left. -/
lemma lookup_append_left {α β : Type} [BEq α] {l₁ : List (α × β)} (l₂ : List (α × β)) {k : α}
    (h : (l₁.lookup k).isSome) : (l₁ ++ l₂).lookup k = l₁.lookup k := by
  induction l₁ with
  | nil => simp at h
  | cons p t ih =>
    rcases p with ⟨a, b⟩
    rw [List.cons_append, List.lookup_cons, List.lookup_cons]
    rw [List.lookup_cons] at h
    cases hk : k == a with
    | true => rfl
    | false =>
      rw [hk] at h
      exact ih h

/-- The `setdefault` seeding loop never changes the binding of a key that
is already present in the accumulator. -/
lemma cacheFold_lookup (l : List (String × String)) (acc : List (String × Color)) (k : String)
    (h : (acc.lookup k).isSome) : ((l.foldl cacheStep acc).lookup k) = acc.lookup k := by
  induction l generalizing acc with
  | nil => rfl
  | cons nc t ih =>
    have hstep : (cacheStep acc nc).lookup k = acc.lookup k := by
      unfold cacheStep
      split
      · rfl
      · exact lookup_append_left _ h
    rw [List.foldl_cons, ih (cacheStep acc nc) (by rw [hstep]; exact h), hstep]

/-- The registry binds `"black"` to the color parsed from `"#000000"`. -/
lemma CACHE_lookup_black : CACHE.lookup "black" = some (Color.fromrgba 0 0 0 255) := by
  unfold CACHE
  rw [cacheFold_lookup _ _ _ (by decide)]
  decide

/-- `Color._fromname('black')` produces solid black. -/
lemma fromname_black : Color.fromname "black" = .ok (Color.fromrgba 0 0 0 255) := by
  unfold Color.fromname
  have h : pyLower "black" = "black" := by decide
  rw [h, CACHE_lookup_black]
  rfl

set_option maxRecDepth 8000 in
/-- `Color('black')` produces solid black. -/
lemma colorInit_strV_black (rnd : ℤ × ℤ × ℤ) :
    colorInit rnd [Arg.strV "black"] = .ok (Color.fromrgba 0 0 0 255) := by
  unfold colorInit
  norm_num
  show Color.fromname "black" = _
  rw [fromname_black]

/-- Extracting a byte field with a mask-then-shift equals a divide-then-mod. -/
lemma and_mask_shiftRight (m k j : ℕ) :
    (m &&& ((2 ^ j - 1) <<< k)) >>> k = m / 2 ^ k % 2 ^ j := by
  apply Nat.eq_of_testBit_eq
  intro i
  rw [← Nat.shiftRight_eq_div_pow]
  simp only [Nat.testBit_shiftRight, Nat.testBit_and, Nat.testBit_shiftLeft,
    Nat.testBit_two_pow_sub_one, Nat.testBit_mod_two_pow]
  have h1 : k + i - k = i := by omega
  have h2 : k ≤ k + i := by omega
  simp [h1, h2, Bool.and_comm, Bool.and_left_comm]

/-- `Int.land` on two naturals is the natural bitwise and. -/
lemma int_land_natCast (m n : ℕ) : Int.land (↑m) (↑n) = ((m &&& n : ℕ) : ℤ) := rfl

/-- `Int.shiftRight` on a natural is the natural right shift. -/
lemma int_shiftRight_natCast (m k : ℕ) : Int.shiftRight (↑m) k = ((m >>> k : ℕ) : ℤ) := rfl

end Helpers

/-! ## Claim theorems -/

/-- Claim C1: the claim asserts that `hueSaturationIntensity` on the
achromatic color (128, 128, 128) is guarded against division by zero and
returns a non-NaN triple.  The code is not guarded: for `r = g = b` the hue
denominator `sqrt((r - b)**2 + (r - b)*(g - b))` is exactly zero and the
division raises `ZeroDivisionError`, modelled as `none`. -/
theorem C1_hsia_achromatic_raises : (Color.fromrgba 128 128 128 255).hsia = none := by
  unfold Color.hsia
  simp only [Color.fromrgba]
  norm_num [Real.sqrt_zero]

/-- Claim C2: the claim asserts that a constructor call with 2 or with 5
positional arguments raises an InvalidArguments-style error.  The code's
final `else` branch evaluates `TypeError('invalid number of arguments: ...')`
without `raise`, so `__init__` returns normally with the component slots
never assigned (`uninit`) instead of raising. -/
theorem C2_bad_arity_returns_uninit :
    colorInit (0, 0, 0) [Arg.intV 1, Arg.intV 2] = InitResult.uninit ∧
    colorInit (0, 0, 0) [Arg.intV 1, Arg.intV 2, Arg.intV 3, Arg.intV 4, Arg.intV 5] =
      InitResult.uninit :=
  ⟨rfl, rfl⟩

/-- Claim C3: the claim asserts that hashing succeeds and equals the hash of
the packed 32-bit RGBA word.  `__hash__` reads `self.u_rgba`, but the class
defines no attribute of that name (the packed property is `rgbau`), so
`hash()` raises `AttributeError` for every Color. -/
theorem C3_hash_always_raises : ∀ c : Color, Color.hash c = none := by
  intro c
  rfl

/-- Claim C6: equality with a tuple-like value is arity-tolerant: a
4-element sequence is compared component-wise, a 3-element sequence matches
iff alpha is 255 and the first three components match, including the two
concrete examples from the spec. -/
theorem C6_eq_arity_tolerant :
    (∀ (c : Color) (x y z w : ℤ),
      Color.eqList c [x, y, z, w] = true ↔
        (c.red = x ∧ c.green = y ∧ c.blue = z ∧ c.alpha = w))
    ∧ (∀ (c : Color) (x y z : ℤ),
      Color.eqList c [x, y, z] = true ↔
        (c.alpha = 255 ∧ c.red = x ∧ c.green = y ∧ c.blue = z))
    ∧ Color.eqList (Color.fromrgba 10 20 30 255) [10, 20, 30] = true
    ∧ Color.eqList (Color.fromrgba 10 20 30 128) [10, 20, 30] = false := by
  refine ⟨?_, ?_, by decide, by decide⟩
  · intro c x y z w
    simp [Color.eqList, Color.rgba, and_assoc]
  · intro c x y z
    simp [Color.eqList, Color.rgba, and_assoc]

/-- Claim C8: `copy` returns a new Color whose overridden components carry
the override values and whose remaining components are the receiver's;
with no overrides the result equals the receiver.  The receiver itself is a
pure value and is never mutated. -/
theorem C8_copy_overrides :
    (∀ (c : Color) (ro go bo ao : Option ℤ),
      Color.copy c ro go bo ao [] =
        .ok (Color.fromrgba (ro.getD c.red) (go.getD c.green)
          (bo.getD c.blue) (ao.getD c.alpha)))
    ∧ ∀ c : Color, Color.copy c none none none none [] = .ok c := by
  constructor
  · intro c ro go bo ao
    cases ro <;> cases go <;> cases bo <;> cases ao <;> rfl
  · intro c
    rfl

/-- Claim C10: integer read access is total exactly on [-4, 3]: 0..3 return
red, green, blue, alpha; negative indices wrap (adding `len(self) = 4`);
any index above 3 or below -4 raises `IndexError`. -/
theorem C10_getitem_index_range :
    (∀ c : Color,
      c.getitem 0 = .ok c.red ∧ c.getitem 1 = .ok c.green ∧
      c.getitem 2 = .ok c.blue ∧ c.getitem 3 = .ok c.alpha ∧
      c.getitem (-1) = .ok c.alpha ∧ c.getitem (-2) = .ok c.blue ∧
      c.getitem (-3) = .ok c.green ∧ c.getitem (-4) = .ok c.red)
    ∧ (∀ (c : Color) (k : ℤ), 3 < k → c.getitem k = .error "IndexError")
    ∧ ∀ (c : Color) (k : ℤ), k < -4 → c.getitem k = .error "IndexError" := by
  refine ⟨fun c => ⟨rfl, rfl, rfl, rfl, rfl, rfl, rfl, rfl⟩, ?_, ?_⟩
  · intro c k hk
    unfold Color.getitem
    rw [if_neg (by omega)]
    unfold Color.getitemTable
    rw [if_neg (by omega), if_neg (by omega), if_neg (by omega), if_neg (by omega)]
  · intro c k hk
    unfold Color.getitem
    rw [if_pos (by omega), if_pos (by omega)]

/-- Witness for C10: the out-of-range halves applied at indices 4 and -5. -/
theorem C10_witness :
    (Color.fromrgba 1 2 3 4).getitem 4 = .error "IndexError" ∧
    (Color.fromrgba 1 2 3 4).getitem (-5) = .error "IndexError" :=
  ⟨C10_getitem_index_range.2.1 (Color.fromrgba 1 2 3 4) 4 (by decide),
   C10_getitem_index_range.2.2 (Color.fromrgba 1 2 3 4) (-5) (by decide)⟩

/-- Claim C5: parsing a 3-digit (resp. 4-digit) hex string equals parsing
its digit-doubled 6-digit (resp. 8-digit) form, in particular for the two
concrete spec examples.  Both sides reduce to the same post-expansion digit
list, so the results coincide whatever the digits are. -/
theorem C5_hex_digit_doubling :
    (∀ (c1 c2 c3 : Char) (alpha : ℤ),
      (hexVal c1).isSome → (hexVal c2).isSome → (hexVal c3).isSome →
      Color.fromhex ⟨['#', c1, c2, c3]⟩ alpha =
        Color.fromhex ⟨['#', c1, c1, c2, c2, c3, c3]⟩ alpha)
    ∧ (∀ (c1 c2 c3 c4 : Char) (alpha : ℤ),
      (hexVal c1).isSome → (hexVal c2).isSome → (hexVal c3).isSome → (hexVal c4).isSome →
      Color.fromhex ⟨['#', c1, c2, c3, c4]⟩ alpha =
        Color.fromhex ⟨['#', c1, c1, c2, c2, c3, c3, c4, c4]⟩ alpha)
    ∧ Color.fromhex "#abc" 255 = Color.fromhex "#aabbcc" 255
    ∧ Color.fromhex "#abcd" 255 = Color.fromhex "#aabbccdd" 255 := by
  exact ⟨fun c1 c2 c3 alpha h1 h2 h3 => rfl, fun c1 c2 c3 c4 alpha h1 h2 h3 h4 => rfl, rfl, rfl⟩

/-- Witness for C5: both doubling equalities applied at concrete digits. -/
theorem C5_witness :
    Color.fromhex ⟨['#', 'a', 'b', 'c']⟩ 255 =
      Color.fromhex ⟨['#', 'a', 'a', 'b', 'b', 'c', 'c']⟩ 255 ∧
    Color.fromhex ⟨['#', 'a', 'b', 'c', 'd']⟩ 128 =
      Color.fromhex ⟨['#', 'a', 'a', 'b', 'b', 'c', 'c', 'd', 'd']⟩ 128 :=
  ⟨C5_hex_digit_doubling.1 'a' 'b' 'c' 255 (by decide) (by decide) (by decide),
   C5_hex_digit_doubling.2.1 'a' 'b' 'c' 'd' 128 (by decide) (by decide) (by decide) (by decide)⟩

/-- Claim C7: hex parsing raises `ValueError` for every digit count other
than 3, 4, 6 or 8, and succeeds on valid hex digits for those counts: 3 and
4 digits are doubled first, 6 digits give the components with the given
default alpha, 8 digits carry their own alpha. -/
theorem C7_hex_length_dispatch :
    (∀ (v : List Char) (alpha : ℤ),
      ¬(v.length = 3 ∨ v.length = 4 ∨ v.length = 6 ∨ v.length = 8) →
      Color.fromhex ⟨'#' :: v⟩ alpha = .error "ValueError: invalid hex code")
    ∧ (∀ (a b c : Char) (alpha : ℤ) (x y z : ℕ),
      hexVal a = some x → hexVal b = some y → hexVal c = some z →
      Color.fromhex ⟨['#', a, b, c]⟩ alpha =
        .ok (Color.fromrgba ((16 * x + x : ℕ) : ℤ) ((16 * y + y : ℕ) : ℤ)
          ((16 * z + z : ℕ) : ℤ) alpha))
    ∧ (∀ (a b c d : Char) (alpha : ℤ) (x y z w : ℕ),
      hexVal a = some x → hexVal b = some y → hexVal c = some z → hexVal d = some w →
      Color.fromhex ⟨['#', a, b, c, d]⟩ alpha =
        .ok (Color.fromrgba ((16 * x + x : ℕ) : ℤ) ((16 * y + y : ℕ) : ℤ)
          ((16 * z + z : ℕ) : ℤ) ((16 * w + w : ℕ) : ℤ)))
    ∧ (∀ (d1 d2 d3 d4 d5 d6 : Char) (alpha : ℤ) (x1 x2 x3 x4 x5 x6 : ℕ),
      hexVal d1 = some x1 → hexVal d2 = some x2 → hexVal d3 = some x3 →
      hexVal d4 = some x4 → hexVal d5 = some x5 → hexVal d6 = some x6 →
      Color.fromhex ⟨['#', d1, d2, d3, d4, d5, d6]⟩ alpha =
        .ok (Color.fromrgba ((16 * x1 + x2 : ℕ) : ℤ) ((16 * x3 + x4 : ℕ) : ℤ)
          ((16 * x5 + x6 : ℕ) : ℤ) alpha))
    ∧ ∀ (d1 d2 d3 d4 d5 d6 d7 d8 : Char) (alpha : ℤ) (x1 x2 x3 x4 x5 x6 x7 x8 : ℕ),
      hexVal d1 = some x1 → hexVal d2 = some x2 → hexVal d3 = some x3 →
      hexVal d4 = some x4 → hexVal d5 = some x5 → hexVal d6 = some x6 →
      hexVal d7 = some x7 → hexVal d8 = some x8 →
      Color.fromhex ⟨['#', d1, d2, d3, d4, d5, d6, d7, d8]⟩ alpha =
        .ok (Color.fromrgba ((16 * x1 + x2 : ℕ) : ℤ) ((16 * x3 + x4 : ℕ) : ℤ)
          ((16 * x5 + x6 : ℕ) : ℤ) ((16 * x7 + x8 : ℕ) : ℤ)) := by
  refine ⟨?_, ?_, ?_, ?_, ?_⟩
  · intro v alpha h
    push_neg at h
    obtain ⟨h3, h4, h6, h8⟩ := h
    have hv : Color.fromhex ⟨'#' :: v⟩ alpha =
        fromhexCore (if v.length = 3 ∨ v.length = 4 then doubleDigits v else v) alpha := rfl
    rw [hv, if_neg (by tauto)]
    unfold fromhexCore
    rw [if_neg h6, if_neg h8]
  · intro a b c alpha x y z h1 h2 h3
    have hv : Color.fromhex ⟨['#', a, b, c]⟩ alpha =
        fromhexCore [a, a, b, b, c, c] alpha := rfl
    rw [hv]
    unfold fromhexCore
    simp [parseHexPair, h1, h2, h3]
  · intro a b c d alpha x y z w h1 h2 h3 h4
    have hv : Color.fromhex ⟨['#', a, b, c, d]⟩ alpha =
        fromhexCore [a, a, b, b, c, c, d, d] alpha := rfl
    rw [hv]
    unfold fromhexCore
    simp [parseHexPair, h1, h2, h3, h4]
  · intro d1 d2 d3 d4 d5 d6 alpha x1 x2 x3 x4 x5 x6 h1 h2 h3 h4 h5 h6
    have hv : Color.fromhex ⟨['#', d1, d2, d3, d4, d5, d6]⟩ alpha =
        fromhexCore [d1, d2, d3, d4, d5, d6] alpha := rfl
    rw [hv]
    unfold fromhexCore
    simp [parseHexPair, h1, h2, h3, h4, h5, h6]
  · intro d1 d2 d3 d4 d5 d6 d7 d8 alpha x1 x2 x3 x4 x5 x6 x7 x8 h1 h2 h3 h4 h5 h6 h7 h8
    have hv : Color.fromhex ⟨['#', d1, d2, d3, d4, d5, d6, d7, d8]⟩ alpha =
        fromhexCore [d1, d2, d3, d4, d5, d6, d7, d8] alpha := rfl
    rw [hv]
    unfold fromhexCore
    simp [parseHexPair, h1, h2, h3, h4, h5, h6, h7, h8]

/-- Witness for C7: the error half at a 1-digit string, the success halves
at concrete digit strings. -/
theorem C7_witness :
    Color.fromhex ⟨['#', 'a']⟩ 255 = .error "ValueError: invalid hex code" ∧
    Color.fromhex ⟨['#', 'a', 'b', 'c']⟩ 77 =
      .ok (Color.fromrgba 170 187 204 77) ∧
    Color.fromhex ⟨['#', 'f', 'f', '0', '0', 'a', 'a']⟩ 9 =
      .ok (Color.fromrgba 255 0 170 9) ∧
    Color.fromhex ⟨['#', 'f', 'f', '0', '0', 'a', 'a', '1', '2']⟩ 9 =
      .ok (Color.fromrgba 255 0 170 18) := by
  refine ⟨C7_hex_length_dispatch.1 ['a'] 255 (by decide), ?_, ?_, ?_⟩
  · exact_mod_cast C7_hex_length_dispatch.2.1 'a' 'b' 'c' 77 10 11 12
      (by decide) (by decide) (by decide)
  · exact_mod_cast C7_hex_length_dispatch.2.2.2.1 'f' 'f' '0' '0' 'a' 'a' 9 15 15 0 0 10 10
      (by decide) (by decide) (by decide) (by decide) (by decide) (by decide)
  · exact_mod_cast C7_hex_length_dispatch.2.2.2.2 'f' 'f' '0' '0' 'a' 'a' '1' '2' 9
      15 15 0 0 10 10 1 2 (by decide) (by decide) (by decide) (by decide)
      (by decide) (by decide) (by decide) (by decide)

/-- Claim C9: the module-level `rgb`/`rgba` helpers map `None` and every
falsy non-Color value to solid black — `(0,0,0)` and `(0,0,0,255)` — and
return the receiver's own tuples for a Color argument, for any outcome of
the random source. -/
theorem C9_rgb_rgba_null_defaults : ∀ rnd : ℤ × ℤ × ℤ,
    (∀ v : Arg, truthy v = false → isColorArg v = false →
      rgb rnd v = .ok [0, 0, 0] ∧ rgba rnd v = .ok [0, 0, 0, 255])
    ∧ ∀ c : Color, rgb rnd (Arg.colorV c) = .ok c.rgb ∧ rgba rnd (Arg.colorV c) = .ok c.rgba := by
  intro rnd
  have hblack := colorInit_strV_black rnd
  constructor
  · intro v hf hc
    cases v with
    | colorV c => simp [isColorArg] at hc
    | noneV =>
      exact ⟨by simp [rgb, truthy, hblack, Color.rgb, Color.fromrgba],
             by simp [rgba, truthy, hblack, Color.rgba, Color.fromrgba]⟩
    | intV n =>
      simp only [truthy] at hf
      exact ⟨by simp [rgb, hf, truthy, hblack, Color.rgb, Color.fromrgba],
             by simp [rgba, hf, truthy, hblack, Color.rgba, Color.fromrgba]⟩
    | strV s =>
      simp only [truthy] at hf
      exact ⟨by simp [rgb, hf, truthy, hblack, Color.rgb, Color.fromrgba],
             by simp [rgba, hf, truthy, hblack, Color.rgba, Color.fromrgba]⟩
    | listV xs =>
      simp only [truthy] at hf
      exact ⟨by simp [rgb, hf, truthy, hblack, Color.rgb, Color.fromrgba],
             by simp [rgba, hf, truthy, hblack, Color.rgba, Color.fromrgba]⟩
  · intro c
    exact ⟨rfl, rfl⟩

/-- Witness for C9: the falsy half applied at `None`. -/
theorem C9_witness :
    rgb (0, 0, 0) Arg.noneV = .ok [0, 0, 0] ∧
    rgba (0, 0, 0) Arg.noneV = .ok [0, 0, 0, 255] :=
  (C9_rgb_rgba_null_defaults (0, 0, 0)).1 Arg.noneV (by decide) (by decide)

/-- Claim C4: for components in [0, 255], constructing from the packed
24-bit word `rgbu` (red in bits 16-23, green in 8-15, blue in 0-7) of
`fromComponents(r, g, b, 255)` gives back exactly `fromComponents(r, g, b,
255)`: the int path of the dispatcher masks out the three byte fields and
alpha defaults to 255. -/
theorem C4_packed_roundtrip : ∀ (rnd : ℤ × ℤ × ℤ) (r g b : ℤ),
    0 ≤ r → r ≤ 255 → 0 ≤ g → g ≤ 255 → 0 ≤ b → b ≤ 255 →
    colorInit rnd [Arg.intV (Color.fromrgba r g b 255).rgbu] =
      .ok (Color.fromrgba r g b 255) := by
  intro rnd r g b hr0 hr1 hg0 hg1 hb0 hb1
  obtain ⟨x, rfl⟩ : ∃ x : ℕ, r = (x : ℤ) := ⟨r.toNat, (Int.toNat_of_nonneg hr0).symm⟩
  obtain ⟨y, rfl⟩ : ∃ y : ℕ, g = (y : ℤ) := ⟨g.toNat, (Int.toNat_of_nonneg hg0).symm⟩
  obtain ⟨z, rfl⟩ : ∃ z : ℕ, b = (z : ℤ) := ⟨b.toNat, (Int.toNat_of_nonneg hb0).symm⟩
  have hx : x ≤ 255 := by exact_mod_cast hr1
  have hy : y ≤ 255 := by exact_mod_cast hg1
  have hz : z ≤ 255 := by exact_mod_cast hb1
  have hrgbu : (Color.fromrgba (x : ℤ) (y : ℤ) (z : ℤ) 255).rgbu =
      ((x * 2 ^ 16 + y * 2 ^ 8 + z : ℕ) : ℤ) := by
    unfold Color.rgbu Color.fromrgba
    rw [show (16 : ℤ) = ((16 : ℕ) : ℤ) from rfl, show (8 : ℤ) = ((8 : ℕ) : ℤ) from rfl]
    rw [Int.shiftLeft_coe_nat, Int.shiftLeft_coe_nat]
    push_cast [Nat.shiftLeft_eq]
    ring
  rw [hrgbu]
  set M : ℕ := x * 2 ^ 16 + y * 2 ^ 8 + z with hM
  unfold colorInit
  norm_num
  show fromrgbaList [Int.shiftRight (Int.land (M : ℤ) 0xff0000) 16,
    Int.shiftRight (Int.land (M : ℤ) 0xff00) 8,
    Int.shiftRight (Int.land (M : ℤ) 0xff) 0] = _
  rw [show (0xff0000 : ℤ) = ((0xff0000 : ℕ) : ℤ) by norm_num,
      show (0xff00 : ℤ) = ((0xff00 : ℕ) : ℤ) by norm_num,
      show (0xff : ℤ) = ((0xff : ℕ) : ℤ) by norm_num]
  rw [int_land_natCast, int_land_natCast, int_land_natCast,
      int_shiftRight_natCast, int_shiftRight_natCast, int_shiftRight_natCast]
  rw [show (0xff0000 : ℕ) = (2 ^ 8 - 1) <<< 16 by decide,
      show (0xff00 : ℕ) = (2 ^ 8 - 1) <<< 8 by decide,
      show (0xff : ℕ) = (2 ^ 8 - 1) <<< 0 by decide]
  rw [and_mask_shiftRight, and_mask_shiftRight, and_mask_shiftRight]
  have e1 : M / 2 ^ 16 % 2 ^ 8 = x := by
    simp only [hM]
    omega
  have e2 : M / 2 ^ 8 % 2 ^ 8 = y := by
    simp only [hM]
    omega
  have e3 : M / 2 ^ 0 % 2 ^ 8 = z := by
    simp only [hM]
    omega
  rw [e1, e2, e3]
  rfl

/-- Witness for C4: the round trip applied at components (17, 35, 204). -/
theorem C4_witness :
    colorInit (0, 0, 0) [Arg.intV (Color.fromrgba 17 35 204 255).rgbu] =
      .ok (Color.fromrgba 17 35 204 255) :=
  C4_packed_roundtrip (0, 0, 0) 17 35 204 (by decide) (by decide) (by decide)
    (by decide) (by decide) (by decide)
